import Mathlib

/-!
Verification of the chatur-mvp realtime transcription relay.

The development shallowly embeds the two relevant source modules:

* `streaming_latency_test.py` — the `TranscriptCollector` class: a list of
  final transcript segments, appended to by the Deepgram `Transcript`
  callback and joined by `get_full_transcript`.
* `realtime_server.py` — `get_groq_suggestion` (returns the LLM text, or the
  sentinel string `"Error: Could not get suggestion."` on any exception) and
  the per-utterance websocket handler `handle_client.on_message` (on a final
  non-empty transcript, request a suggestion for that utterance's text and
  send a single combined `final_result` JSON message to the client).

Transcript events delivered by the transcription service are modelled by the
two fields the code reads: `result.is_final` and
`result.channel.alternatives[0].transcript`.  The fallible Groq call is
modelled by an oracle `String → GroqOutcome`, where `GroqOutcome.failure`
stands for any raised exception and `GroqOutcome.success` for a completed
call whose first choice's message content is the carried string.
-/

/-- One `Transcript` event from the transcription service, restricted to the
two fields the code reads: `result.is_final` and
`result.channel.alternatives[0].transcript`. -/
structure TranscriptEvent where
  is_final : Bool
  transcript : String
  deriving DecidableEq, Repr

/-- The Bool guard shared verbatim by both transcript callbacks:
`result.is_final and result.channel.alternatives[0].transcript != ''`. -/
def finalNonEmpty (ev : TranscriptEvent) : Bool :=
  ev.is_final && ev.transcript != ""

namespace StreamingLatencyTest

/-- `TranscriptCollector` from `streaming_latency_test.py`: its only state is
the list `self.segments`. -/
structure TranscriptCollector where
  segments : List String
  deriving DecidableEq, Repr

/-- `TranscriptCollector.__init__`: `self.segments = []`. -/
def TranscriptCollector.init : TranscriptCollector :=
  { segments := [] }

/-- `TranscriptCollector.on_message`: if `result.is_final` and the transcript
text differs from `''`, append it to `self.segments`; otherwise do nothing. -/
def TranscriptCollector.on_message (c : TranscriptCollector)
    (result : TranscriptEvent) : TranscriptCollector :=
  if result.is_final && result.transcript != "" then
    { c with segments := c.segments ++ [result.transcript] }
  else
    c

/-- `TranscriptCollector.get_full_transcript`: `" ".join(self.segments)`. -/
def TranscriptCollector.get_full_transcript (c : TranscriptCollector) : String :=
  String.intercalate " " c.segments

/-- Deliver a sequence of transcript events to the collector in order, as the
Deepgram SDK does by invoking `on_message` once per event. -/
def TranscriptCollector.run (c : TranscriptCollector)
    (events : List TranscriptEvent) : TranscriptCollector :=
  events.foldl TranscriptCollector.on_message c

end StreamingLatencyTest

namespace RealtimeServer

/-- Outcome of the underlying Groq chat-completion call in
`get_groq_suggestion`: either the first choice's message content, or a raised
exception (carried as its message). -/
inductive GroqOutcome where
  | success (content : String)
  | failure (exn : String)
  deriving DecidableEq, Repr

/-- `get_groq_suggestion` from `realtime_server.py`: return
`chat_completion.choices[0].message.content`, and on any exception return the
string `"Error: Could not get suggestion."`.  The network call is abstracted
by its outcome. -/
def get_groq_suggestion (outcome : GroqOutcome) : String :=
  match outcome with
  | .success content => content
  | .failure _ => "Error: Could not get suggestion."

/-- The JSON object `response` built and sent by `handle_client.on_message`:
`{"type": "final_result", "transcribed_text": ..., "llm_suggestion": ...}`. -/
structure Response where
  type : String
  transcribed_text : String
  llm_suggestion : String
  deriving DecidableEq, Repr

/-- The key/value pairs of the serialized JSON object, in the order
`json.dumps` emits them from the dict literal in the source. -/
def Response.toPairs (r : Response) : List (String × String) :=
  [("type", r.type), ("transcribed_text", r.transcribed_text),
   ("llm_suggestion", r.llm_suggestion)]

/-- `handle_client.on_message` from `realtime_server.py`, parameterized by the
Groq oracle.  On a final event with transcript text different from `''` it
awaits `get_groq_suggestion(transcript)` and sends one JSON message; otherwise
it does nothing.  Returns the list of texts passed to `get_groq_suggestion`
and the list of messages sent over the websocket, in order. -/
def on_message (groq : String → GroqOutcome) (result : TranscriptEvent) :
    List String × List Response :=
  if result.is_final && result.transcript != "" then
    let transcript := result.transcript
    let suggestion := get_groq_suggestion (groq transcript)
    ([transcript],
     [{ type := "final_result", transcribed_text := transcript,
        llm_suggestion := suggestion }])
  else
    ([], [])

/-- One client session's transcript callbacks, in delivery order: the
Deepgram SDK invokes `on_message` once per event, and the handler keeps no
state between invocations.  Accumulates all suggestion-request texts and all
websocket messages of the session, in order. -/
def handle_events (groq : String → GroqOutcome)
    (events : List TranscriptEvent) : List String × List Response :=
  events.foldl
    (fun acc ev =>
      let r := on_message groq ev
      (acc.1 ++ r.1, acc.2 ++ r.2))
    ([], [])

end RealtimeServer

open StreamingLatencyTest RealtimeServer

/-! ## Basic characterizations of the two callbacks -/

/-- The guard holds exactly for final events with non-empty text. -/
theorem finalNonEmpty_eq_true (ev : TranscriptEvent) :
    finalNonEmpty ev = true ↔ ev.is_final = true ∧ ev.transcript ≠ "" := by
  simp [finalNonEmpty]

/-- On a final non-empty event the collector appends the text. -/
theorem collector_on_message_pos (c : TranscriptCollector) (ev : TranscriptEvent)
    (h : finalNonEmpty ev = true) :
    c.on_message ev = { c with segments := c.segments ++ [ev.transcript] } := by
  have hg : (ev.is_final && ev.transcript != "") = true := h
  simp [TranscriptCollector.on_message, hg]

/-- On any other event the collector is unchanged. -/
theorem collector_on_message_neg (c : TranscriptCollector) (ev : TranscriptEvent)
    (h : finalNonEmpty ev = false) :
    c.on_message ev = c := by
  have hg : (ev.is_final && ev.transcript != "") = false := h
  simp [TranscriptCollector.on_message, hg]

/-- On a final non-empty event the server handler makes one suggestion request
with that utterance's text and sends one `final_result` message. -/
theorem server_on_message_pos (groq : String → GroqOutcome) (ev : TranscriptEvent)
    (h : finalNonEmpty ev = true) :
    on_message groq ev
      = ([ev.transcript],
         [{ type := "final_result", transcribed_text := ev.transcript,
            llm_suggestion := get_groq_suggestion (groq ev.transcript) }]) := by
  have hg : (ev.is_final && ev.transcript != "") = true := h
  simp [RealtimeServer.on_message, hg]

/-- On any other event the server handler does nothing. -/
theorem server_on_message_neg (groq : String → GroqOutcome) (ev : TranscriptEvent)
    (h : finalNonEmpty ev = false) :
    on_message groq ev = ([], []) := by
  have hg : (ev.is_final && ev.transcript != "") = false := h
  simp [RealtimeServer.on_message, hg]

/-- Segments accumulated over a run: the texts of the final non-empty events,
appended in delivery order. -/
theorem run_segments (c : TranscriptCollector) (evs : List TranscriptEvent) :
    (c.run evs).segments
      = c.segments ++ (evs.filter finalNonEmpty).map TranscriptEvent.transcript := by
  induction evs generalizing c with
  | nil => simp [TranscriptCollector.run]
  | cons ev evs ih =>
    have hstep : c.run (ev :: evs) = (c.on_message ev).run evs := rfl
    rw [hstep, ih]
    cases h : finalNonEmpty ev with
    | true => rw [collector_on_message_pos c ev h]; simp [List.filter_cons, h]
    | false => rw [collector_on_message_neg c ev h]; simp [List.filter_cons, h]

/-- The fold inside `handle_events`, characterized for any accumulator. -/
theorem handle_events_go (groq : String → GroqOutcome) (evs : List TranscriptEvent)
    (acc : List String × List Response) :
    evs.foldl
        (fun acc ev =>
          let r := on_message groq ev
          (acc.1 ++ r.1, acc.2 ++ r.2))
        acc
      = (acc.1 ++ (evs.filter finalNonEmpty).map TranscriptEvent.transcript,
         acc.2 ++ (evs.filter finalNonEmpty).map
           (fun e => { type := "final_result", transcribed_text := e.transcript,
                       llm_suggestion := get_groq_suggestion (groq e.transcript) })) := by
  induction evs generalizing acc with
  | nil => simp
  | cons ev evs ih =>
    rw [List.foldl_cons, ih]
    cases h : finalNonEmpty ev with
    | true => rw [server_on_message_pos groq ev h]; simp [List.filter_cons, h]
    | false => rw [server_on_message_neg groq ev h]; simp [List.filter_cons, h]

/-- A session's suggestion requests and outbound messages: exactly one of each
per final non-empty transcript event, in delivery order. -/
theorem handle_events_spec (groq : String → GroqOutcome) (evs : List TranscriptEvent) :
    handle_events groq evs
      = ((evs.filter finalNonEmpty).map TranscriptEvent.transcript,
         (evs.filter finalNonEmpty).map
           (fun e => { type := "final_result", transcribed_text := e.transcript,
                       llm_suggestion := get_groq_suggestion (groq e.transcript) })) := by
  have h := handle_events_go groq evs ([], [])
  simpa [RealtimeServer.handle_events] using h

/-- Filtering a stream of all-final events keeps exactly the non-empty texts. -/
theorem filter_map_final (ts : List String) :
    ((ts.map (fun t => TranscriptEvent.mk true t)).filter finalNonEmpty).map
        TranscriptEvent.transcript
      = ts.filter (fun t => t != "") := by
  induction ts with
  | nil => simp
  | cons t ts ih =>
    cases h : (t != "") with
    | true =>
      simp only [List.map_cons, List.filter_cons]
      have hg : finalNonEmpty (TranscriptEvent.mk true t) = true := by
        simp [finalNonEmpty, h]
      rw [hg]
      simp [h, ih]
    | false =>
      simp only [List.map_cons, List.filter_cons]
      have hg : finalNonEmpty (TranscriptEvent.mk true t) = false := by
        simp [finalNonEmpty, h]
      rw [hg]
      simp [h, ih]

/-! ## Claims -/

/-- Claim C1: for every sequence of final transcript fragments delivered in
order, `get_full_transcript` returns the fragments joined by a single space in
arrival order — never reordered, never deduplicated — with exactly-empty
fragments dropped. -/
theorem C1_full_transcript_joins_fragments (ts : List String) :
    (TranscriptCollector.init.run
        (ts.map (fun t => TranscriptEvent.mk true t))).get_full_transcript
      = String.intercalate " " (ts.filter (fun t => t != "")) := by
  simp [TranscriptCollector.get_full_transcript, run_segments,
    TranscriptCollector.init, filter_map_final]

/-- Claim C2 is false of the code: a final non-empty utterance causes ONE
websocket message of type `final_result`, not a `transcript` event followed by
a `suggestion` event. -/
theorem C2_counterexample :
    (on_message (fun _ => GroqOutcome.success "- point one")
        (TranscriptEvent.mk true "hello")).2.map Response.type = ["final_result"]
    ∧ (on_message (fun _ => GroqOutcome.success "- point one")
        (TranscriptEvent.mk true "hello")).2.length = 1
    ∧ ("final_result" : String) ≠ "transcript"
    ∧ ("final_result" : String) ≠ "suggestion" := by
  exact ⟨rfl, rfl, by decide, by decide⟩

/-- Claim C2 amended: every transcript callback carrying a final non-empty
utterance emits exactly one combined `final_result` message, holding both the
transcribed text and the suggestion for that cycle. -/
theorem C2_amended_one_combined_message (groq : String → GroqOutcome)
    (ev : TranscriptEvent) (h : finalNonEmpty ev = true) :
    (on_message groq ev).2
      = [{ type := "final_result", transcribed_text := ev.transcript,
           llm_suggestion := get_groq_suggestion (groq ev.transcript) }] := by
  rw [server_on_message_pos groq ev h]

/-- Witness for the amended C2 at a concrete final utterance. -/
theorem C2_amended_witness :
    (on_message (fun _ => GroqOutcome.success "- point one")
        (TranscriptEvent.mk true "hello")).2
      = [{ type := "final_result", transcribed_text := "hello",
           llm_suggestion := "- point one" }] :=
  C2_amended_one_combined_message (fun _ => GroqOutcome.success "- point one")
    (TranscriptEvent.mk true "hello") (by decide)

/-- Claim C3: a new segment is stored iff the event is final with non-empty
text; any event failing the guard — in particular every interim event — leaves
the collector unchanged, and an interim event makes the server emit nothing. -/
theorem C3_segment_stored_iff_final_nonempty (c : TranscriptCollector)
    (ev : TranscriptEvent) :
    ((c.on_message ev).segments = c.segments ++ [ev.transcript]
        ↔ ev.is_final = true ∧ ev.transcript ≠ "")
    ∧ (finalNonEmpty ev = false → c.on_message ev = c)
    ∧ (∀ groq : String → GroqOutcome, ev.is_final = false →
        on_message groq ev = ([], [])) := by
  refine ⟨?_, collector_on_message_neg c ev, ?_⟩
  · cases hg : finalNonEmpty ev with
    | true =>
      rw [collector_on_message_pos c ev hg]
      simpa using (finalNonEmpty_eq_true ev).mp hg
    | false =>
      rw [collector_on_message_neg c ev hg]
      have h1 : ¬(ev.is_final = true ∧ ev.transcript ≠ "") := by
        intro hc
        rw [(finalNonEmpty_eq_true ev).mpr hc] at hg
        simp at hg
      have h2 : ¬(c.segments = c.segments ++ [ev.transcript]) := by
        intro hc
        have hlen := congrArg List.length hc
        simp at hlen
      exact iff_of_false h2 h1
  · intro groq h
    exact server_on_message_neg groq ev (by simp [finalNonEmpty, h])

/-- Claim C4 is false of the code: after final utterances "hello" then
"world", the second suggestion request carries only "world", while the full
assembled transcript at that point is "hello world". -/
theorem C4_counterexample :
    (handle_events (fun _ => GroqOutcome.success "- point one")
        [TranscriptEvent.mk true "hello", TranscriptEvent.mk true "world"]).1
      = ["hello", "world"]
    ∧ (TranscriptCollector.init.run
        [TranscriptEvent.mk true "hello",
         TranscriptEvent.mk true "world"]).get_full_transcript
      = "hello world"
    ∧ ("world" : String) ≠ "hello world" := by
  exact ⟨rfl, by decide, by decide⟩

/-- Claim C4 amended: the suggestion call for each final non-empty utterance
carries the text of that single utterance only; the server holds no assembled
transcript. -/
theorem C4_amended_requests_single_utterance (groq : String → GroqOutcome)
    (evs : List TranscriptEvent) :
    (handle_events groq evs).1
      = (evs.filter finalNonEmpty).map TranscriptEvent.transcript := by
  rw [handle_events_spec]

/-- Claim C5 is false of the code: a failed suggestion call yields a plain
`String` equal to what a success carrying the sentinel text would yield (no
typed failure value), and the failure reaches the client inside a normal
`final_result` message, not an `error` event. -/
theorem C5_counterexample :
    get_groq_suggestion (GroqOutcome.failure "connection reset")
      = get_groq_suggestion (GroqOutcome.success "Error: Could not get suggestion.")
    ∧ (on_message (fun _ => GroqOutcome.failure "connection reset")
        (TranscriptEvent.mk true "hello")).2.map Response.type = ["final_result"]
    ∧ ("final_result" : String) ≠ "error" := by
  exact ⟨rfl, rfl, by decide⟩

/-- Claim C5 amended: on failure the requester returns the sentinel string in
place of a suggestion, exactly one request is made per final non-empty
utterance (no retry), the failure text is delivered in the `llm_suggestion`
field of the usual `final_result` message, and the session continues — every
later final utterance still produces its request and its message. -/
theorem C5_amended_failure_sentinel_in_message (evs : List TranscriptEvent) :
    (handle_events (fun _ => GroqOutcome.failure "connection reset") evs).1
      = (evs.filter finalNonEmpty).map TranscriptEvent.transcript
    ∧ (handle_events (fun _ => GroqOutcome.failure "connection reset") evs).2
      = (evs.filter finalNonEmpty).map
          (fun e => { type := "final_result", transcribed_text := e.transcript,
                      llm_suggestion := "Error: Could not get suggestion." }) := by
  constructor
  · rw [handle_events_spec]
  · rw [handle_events_spec]
    rfl

/-- Claim C6 is false of the code: an emitted message's serialized keys are
exactly `type`, `transcribed_text`, `llm_suggestion` — no `sequence` field
exists on any outbound event. -/
theorem C6_counterexample :
    ((on_message (fun _ => GroqOutcome.success "- point one")
        (TranscriptEvent.mk true "hello")).2.map
        (fun m => (Response.toPairs m).map Prod.fst))
      = [["type", "transcribed_text", "llm_suggestion"]]
    ∧ (["type", "transcribed_text", "llm_suggestion"].contains "sequence") = false := by
  exact ⟨rfl, rfl⟩

/-- Claim C6 amended: outbound messages carry no `sequence` integer — every
message's keys are exactly `type`, `transcribed_text`, `llm_suggestion` — and
a session's messages are exactly one `final_result` message per final
non-empty utterance, in callback delivery order. -/
theorem C6_amended_no_sequence_field (groq : String → GroqOutcome)
    (evs : List TranscriptEvent) :
    (handle_events groq evs).2
      = (evs.filter finalNonEmpty).map
          (fun e => { type := "final_result", transcribed_text := e.transcript,
                      llm_suggestion := get_groq_suggestion (groq e.transcript) })
    ∧ ∀ m ∈ (handle_events groq evs).2,
        (Response.toPairs m).map Prod.fst
          = ["type", "transcribed_text", "llm_suggestion"] := by
  refine ⟨by rw [handle_events_spec], fun m _ => rfl⟩

/-- Claim C8: `get_groq_suggestion` never propagates the exception — it is
total on both outcomes and returns a `String` either way; on failure that
string is exactly the sentinel, so a failed request is indistinguishable from
a success whose text happens to equal the sentinel. -/
theorem C8_failure_returns_sentinel_string :
    (∀ e, get_groq_suggestion (GroqOutcome.failure e)
        = "Error: Could not get suggestion.")
    ∧ (∀ s, get_groq_suggestion (GroqOutcome.success s) = s)
    ∧ get_groq_suggestion (GroqOutcome.failure "timeout")
        = get_groq_suggestion
            (GroqOutcome.success "Error: Could not get suggestion.") :=
  ⟨fun _ => rfl, fun _ => rfl, rfl⟩

/-- Claim C9: with zero collected segments — initially, or after only
interim or empty events — `get_full_transcript` returns the empty string. -/
theorem C9_no_segments_empty_transcript (evs : List TranscriptEvent)
    (h : ∀ ev ∈ evs, ev.is_final = false ∨ ev.transcript = "") :
    (TranscriptCollector.init.run evs).get_full_transcript = "" := by
  have hf : evs.filter finalNonEmpty = [] := by
    rw [List.filter_eq_nil_iff]
    intro ev hev
    rcases h ev hev with h1 | h1 <;> simp [finalNonEmpty, h1]
  simp [TranscriptCollector.get_full_transcript, run_segments, hf,
    TranscriptCollector.init]
  rfl

/-- Witness for C9: the fresh collector, and a collector fed one interim and
one final-but-empty event, both give the empty string. -/
theorem C9_witness :
    TranscriptCollector.init.get_full_transcript = ""
    ∧ (TranscriptCollector.init.run
        [TranscriptEvent.mk false "interim guess",
         TranscriptEvent.mk true ""]).get_full_transcript = "" :=
  ⟨C9_no_segments_empty_transcript [] (by simp),
   C9_no_segments_empty_transcript
     [TranscriptEvent.mk false "interim guess", TranscriptEvent.mk true ""]
     (by decide)⟩

/-- Claim C10: the emptiness filter compares against `''` only, so a final
utterance of one space is stored, appears in the full transcript, and in the
server triggers a suggestion request and a client message. -/
theorem C10_whitespace_passes_filter (c : TranscriptCollector)
    (groq : String → GroqOutcome) :
    (c.on_message (TranscriptEvent.mk true " ")).segments = c.segments ++ [" "]
    ∧ (TranscriptCollector.init.on_message
        (TranscriptEvent.mk true " ")).get_full_transcript = " "
    ∧ on_message groq (TranscriptEvent.mk true " ")
      = ([" "], [{ type := "final_result", transcribed_text := " ",
                   llm_suggestion := get_groq_suggestion (groq " ") }]) := by
  refine ⟨?_, by decide, server_on_message_pos groq _ (by decide)⟩
  rw [collector_on_message_pos c _ (by decide)]
